import Mathlib

/-!
Verification of the tab-selection logic of the Airflow DAG details panel
(airflow/www/static/js/dag/details/index.tsx).

The embedding models the pure mapping functions (tabToIndex, indexToTab),
the derived selection booleans (isDag, isDagRun, isMappedTaskSummary,
isTaskInstance, showTaskDetails), the tab-change handler, the auto-redirect
effect, the instance selection and the state normalization, over explicit
option-typed records.  Optional JavaScript values are Option types; the
truthiness of a possibly-absent string (empty string is falsy in JS) is made
explicit via the helper truthy.
-/

namespace DagDetails

/-- JS truthiness of a possibly-absent string: undefined and the empty
string are falsy, any other string is truthy. -/
def truthy : Option String → Bool
  | none => false
  | some s => s != ""

/-- tabToIndex (index.tsx lines 77-94): switch over the optional tab name.
The source cases for "logs" and "mapped_tasks" fall through to the same
return; "details" and the default both return 0. -/
def tabToIndex (tab : Option String) : Nat :=
  if tab = some "graph" then 1
  else if tab = some "gantt" then 2
  else if tab = some "code" then 3
  else if tab = some "logs" then 4
  else if tab = some "mapped_tasks" then 4
  else if tab = some "xcom" then 5
  else if tab = some "details" then 0
  else 0

/-- indexToTab (index.tsx lines 96-119): switch over the numeric index with
the two context flags; case 0 and the default both return undefined. -/
def indexToTab (index : Nat) (isTaskInstanceFlag : Bool)
    (isMappedTaskSummaryFlag : Bool) : Option String :=
  if index = 1 then some "graph"
  else if index = 2 then some "gantt"
  else if index = 3 then some "code"
  else if index = 4 then
    if isMappedTaskSummaryFlag then some "mapped_tasks"
    else if isTaskInstanceFlag then some "logs"
    else none
  else if index = 5 then
    if isTaskInstanceFlag then some "xcom"
    else none
  else none

/-- TAB_PARAM (index.tsx line 121). -/
def TAB_PARAM : String := "tab"

/-- A task instance as read by this view: runId, an optional state string
and an optional try number. -/
structure TaskInstanceRec where
  runId : String
  state : Option String
  tryNumber : Option Int

/-- A node of the task/group tree as read by this view: an optional list of
children (its mere presence, even empty, makes the node a group), an
optional isMapped flag, and the per-run instance list. -/
inductive TaskNode : Type where
  | mk : Option (List TaskNode) → Option Bool → List TaskInstanceRec → TaskNode

/-- Accessor for the optional children list of a node. -/
def TaskNode.children : TaskNode → Option (List TaskNode)
  | .mk c _ _ => c

/-- Accessor for the optional isMapped flag of a node. -/
def TaskNode.isMapped : TaskNode → Option Bool
  | .mk _ m _ => m

/-- Accessor for the instance list of a node. -/
def TaskNode.instances : TaskNode → List TaskInstanceRec
  | .mk _ _ i => i

/-- The current selection (src/dag/useSelection): optional run id, task id
and map index. -/
structure Selection where
  runId : Option String
  taskId : Option String
  mapIndex : Option Int

/-- group?.children (index.tsx line 141): undefined when the lookup found no
node, otherwise the node's optional children list. -/
def childrenOf (g : Option TaskNode) : Option (List TaskNode) :=
  match g with
  | none => none
  | some t => t.children

/-- isGroup = !!children (index.tsx line 143): any present children array,
even empty, is truthy in JS. -/
def isGroupOf (g : Option TaskNode) : Bool :=
  (childrenOf g).isSome

/-- isMapped = group?.isMapped (index.tsx line 142), as a JS truthiness
test: true exactly when the node exists and its flag is present and true. -/
def isMappedOf (g : Option TaskNode) : Bool :=
  match g with
  | none => false
  | some t => match t.isMapped with
    | none => false
    | some b => b

/-- isDag (index.tsx line 134): no run and no task selected. -/
def isDag (sel : Selection) : Bool :=
  !truthy sel.runId && !truthy sel.taskId

/-- isDagRun (index.tsx line 135): run selected, no task. -/
def isDagRun (sel : Selection) : Bool :=
  truthy sel.runId && !truthy sel.taskId

/-- isMappedTaskSummary (index.tsx lines 145-151): task and run selected,
not a group, node mapped, and no specific map index chosen. -/
def isMappedTaskSummary (sel : Selection) (g : Option TaskNode) : Bool :=
  truthy sel.taskId && truthy sel.runId && !isGroupOf g && isMappedOf g &&
    sel.mapIndex.isNone

/-- isTaskInstance (index.tsx lines 152-157): task and run selected, not a
group, and not the mapped-summary view. -/
def isTaskInstance (sel : Selection) (g : Option TaskNode) : Bool :=
  truthy sel.taskId && truthy sel.runId && !isGroupOf g &&
    !isMappedTaskSummary sel g

/-- showTaskDetails (index.tsx line 158): task selected, no run. -/
def showTaskDetails (sel : Selection) : Bool :=
  truthy sel.taskId && !truthy sel.runId

/-- The auto-redirect effect (index.tsx lines 175-182), modelled as the
index handed to onChangeTab, or none when the effect does nothing. -/
def autoRedirectTarget (sel : Selection) (g : Option TaskNode)
    (tabIndex : Nat) : Option Nat :=
  let tabCount : Nat :=
    if truthy sel.runId && truthy sel.taskId && !isGroupOf g then 5 else 4
  if tabCount = 4 ∧ tabIndex > 3 then
    if !truthy sel.runId && truthy sel.taskId then some 0 else some 1
  else none

/-- Modelled from the spec: URLSearchParamsWrapper.delete (the wrapper in
src/utils/URLSearchParamWrapper is not under src/); removing a query
parameter leaves every pair with a different key untouched. -/
def deleteParam : List (String × String) → String → List (String × String)
  | [], _ => []
  | p :: rest, k => if p.1 = k then deleteParam rest k
    else p :: deleteParam rest k

/-- Modelled from the spec: URLSearchParamsWrapper.set; setting a query
parameter replaces the first pair with that key (dropping any later
duplicates) or appends it, leaving every pair with a different key
untouched. -/
def setParam : List (String × String) → String → String →
    List (String × String)
  | [], k, v => [(k, v)]
  | p :: rest, k, v => if p.1 = k then (k, v) :: deleteParam rest k
    else p :: setParam rest k v

/-- Lookup of a query parameter: value of the first pair with that key. -/
def getParam : List (String × String) → String → Option String
  | [], _ => none
  | p :: rest, k => if p.1 = k then some p.2 else getParam rest k

/-- All values stored under a key, in order. -/
def getAllParams : List (String × String) → String → List String
  | [], _ => []
  | p :: rest, k =>
    if p.1 = k then p.2 :: getAllParams rest k else getAllParams rest k

/-- onChangeTab (index.tsx lines 164-173): compute the new tab name from
the index and the two context flags, then set the tab query parameter when
a name came back (tab names are nonempty, hence truthy) and delete it
otherwise. -/
def onChangeTab (ps : List (String × String)) (index : Nat)
    (isTaskInstanceFlag : Bool) (isMappedTaskSummaryFlag : Bool) :
    List (String × String) :=
  match indexToTab index isTaskInstanceFlag isMappedTaskSummaryFlag with
  | some t => setParam ps TAB_PARAM t
  | none => deleteParam ps TAB_PARAM

/-- instance?.state seen through the optional instance
(instance-dot-state with optional chaining). -/
def stateOf (inst : Option TaskInstanceRec) : Option String :=
  Option.bind inst (fun ti => ti.state)

/-- The state value passed to MarkInstanceAs (index.tsx lines 229-233) and
to Logs (index.tsx lines 378-382): undefined when the instance state is
falsy (absent instance, absent state or empty string) or is the string
"none", and the instance state otherwise. -/
def normalizedState (inst : Option TaskInstanceRec) : Option String :=
  if !truthy (stateOf inst) || stateOf inst == some "none" then none
  else stateOf inst

/-- The enabled flag of the useTaskInstance fetch (index.tsx line 190):
mapIndex is defined. -/
def fetchEnabled (mapIndex : Option Int) : Bool :=
  mapIndex.isSome

/-- instance (index.tsx lines 193-196): the fetched mapped task instance
when a map index is defined and greater than -1, otherwise the entry of the
group's per-run instance list whose runId strictly equals the selected
run id. -/
def instanceOf (mapIndex : Option Int) (mappedTaskInstance : Option TaskInstanceRec)
    (g : Option TaskNode) (runId : Option String) : Option TaskInstanceRec :=
  if (match mapIndex with
      | some m => decide (m > -1)
      | none => false) then mappedTaskInstance
  else Option.bind g (fun t => t.instances.find? (fun ti => some ti.runId == runId))

/-- C1: tabToIndex is total and maps "graph" to 1, "gantt" to 2, "code" to
3, "logs" and "mapped_tasks" to 4, "xcom" to 5, and "details", an unset
input, or any other string to 0; being a total Lean function it never
errors. -/
theorem tabToIndex_total_spec :
    tabToIndex (some "graph") = 1 ∧
    tabToIndex (some "gantt") = 2 ∧
    tabToIndex (some "code") = 3 ∧
    tabToIndex (some "logs") = 4 ∧
    tabToIndex (some "mapped_tasks") = 4 ∧
    tabToIndex (some "xcom") = 5 ∧
    tabToIndex (some "details") = 0 ∧
    tabToIndex none = 0 ∧
    ∀ s : String,
      s ∉ (["graph", "gantt", "code", "logs", "mapped_tasks", "xcom"] :
        List String) →
      tabToIndex (some s) = 0 := by
  refine ⟨rfl, rfl, rfl, rfl, rfl, rfl, rfl, rfl, ?_⟩
  intro s hs
  simp only [List.mem_cons, List.not_mem_nil, or_false, not_or] at hs
  obtain ⟨h1, h2, h3, h4, h5, h6⟩ := hs
  simp [tabToIndex, h1, h2, h3, h4, h5, h6]

/-- Witness for C1 at the concrete unrecognized string "zzz". -/
theorem tabToIndex_total_spec_witness :
    ("zzz" : String) ∉
        (["graph", "gantt", "code", "logs", "mapped_tasks", "xcom"] :
          List String) ∧
      tabToIndex (some "zzz") = 0 :=
  ⟨by decide, tabToIndex_total_spec.2.2.2.2.2.2.2.2 "zzz" (by decide)⟩

/-- C2: for every pair of flags, indexToTab maps 1 to "graph", 2 to
"gantt", 3 to "code"; maps 4 to "mapped_tasks" when the mapped-summary flag
is set, else to "logs" when the task-instance flag is set, else to unset;
maps 5 to "xcom" exactly when the task-instance flag is set; and maps 0 and
every other index to unset. -/
theorem indexToTab_spec : ∀ (ti ms : Bool),
    indexToTab 1 ti ms = some "graph" ∧
    indexToTab 2 ti ms = some "gantt" ∧
    indexToTab 3 ti ms = some "code" ∧
    indexToTab 4 ti ms =
      (if ms then some "mapped_tasks"
       else if ti then some "logs" else none) ∧
    indexToTab 5 ti ms = (if ti then some "xcom" else none) ∧
    indexToTab 0 ti ms = none ∧
    ∀ i : Nat, i ∉ ([0, 1, 2, 3, 4, 5] : List Nat) →
      indexToTab i ti ms = none := by
  intro ti ms
  refine ⟨rfl, rfl, rfl, ?_, ?_, rfl, ?_⟩
  · cases ms <;> cases ti <;> rfl
  · cases ti <;> rfl
  · intro i hi
    simp only [List.mem_cons, List.not_mem_nil, or_false, not_or] at hi
    obtain ⟨h0, h1, h2, h3, h4, h5⟩ := hi
    simp [indexToTab, h1, h2, h3, h4, h5]

/-- Witness for C2 at the concrete out-of-range index 7. -/
theorem indexToTab_spec_witness :
    (7 : Nat) ∉ ([0, 1, 2, 3, 4, 5] : List Nat) ∧
      indexToTab 7 true false = none :=
  ⟨by decide, (indexToTab_spec true false).2.2.2.2.2.2 7 (by decide)⟩

/-- C4: for every tab name among "graph", "gantt" and "code" and every pair
of context flags, indexToTab applied to tabToIndex of the name returns the
name again. -/
theorem roundTrip_defined_tabs : ∀ (name : String) (ti ms : Bool),
    name ∈ (["graph", "gantt", "code"] : List String) →
    indexToTab (tabToIndex (some name)) ti ms = some name := by
  intro name ti ms h
  simp only [List.mem_cons, List.not_mem_nil, or_false] at h
  rcases h with rfl | rfl | rfl <;> rfl

/-- Witness for C4 at the concrete name "gantt" with flags false and
true. -/
theorem roundTrip_defined_tabs_witness :
    ("gantt" : String) ∈ (["graph", "gantt", "code"] : List String) ∧
      indexToTab (tabToIndex (some "gantt")) false true = some "gantt" :=
  ⟨by decide, roundTrip_defined_tabs "gantt" false true (by decide)⟩

/-- C9: whenever indexToTab returns a tab name at some index under any
flags, tabToIndex maps that name back to the same index. -/
theorem indexToTab_reverse_roundTrip : ∀ (i : Nat) (ti ms : Bool)
    (t : String), indexToTab i ti ms = some t → tabToIndex (some t) = i := by
  intro i ti ms t h
  rcases Nat.lt_or_ge i 6 with h6 | h6
  · interval_cases i <;> cases ti <;> cases ms <;>
      simp [indexToTab] at h <;> subst h <;> rfl
  · have hnone : indexToTab i ti ms = none := by
      unfold indexToTab
      rw [if_neg (by omega), if_neg (by omega), if_neg (by omega),
        if_neg (by omega), if_neg (by omega)]
    rw [hnone] at h
    exact absurd h (by simp)

/-- Witness for C9 at index 4 with the task-instance flag set. -/
theorem indexToTab_reverse_roundTrip_witness : tabToIndex (some "logs") = 4 :=
  indexToTab_reverse_roundTrip 4 true false "logs" rfl

/-- C3: for every selection and node lookup, the five derived booleans
isDag, isDagRun, isMappedTaskSummary, isTaskInstance, showTaskDetails
partition the state: none of them holds when a run and a task are both
selected and the node is a group, and exactly one holds otherwise; in
particular no two are ever simultaneously true. -/
theorem selection_flags_partition : ∀ (sel : Selection) (g : Option TaskNode),
    List.count true
        [isDag sel, isDagRun sel, isMappedTaskSummary sel g,
          isTaskInstance sel g, showTaskDetails sel] =
      (if truthy sel.runId && truthy sel.taskId && isGroupOf g then 0
       else 1) := by
  intro sel g
  cases hR : truthy sel.runId <;> cases hT : truthy sel.taskId <;>
    cases hG : isGroupOf g <;> cases hM : isMappedOf g <;>
    cases hI : sel.mapIndex.isNone <;>
    · simp only [isDag, isDagRun, isMappedTaskSummary, isTaskInstance,
        showTaskDetails, hR, hT, hG, hM, hI]
      decide

/-- C5: the auto-redirect effect does nothing when five tabs are visible
(run and task selected, node not a group) or when the tab index is at most
3; with only four visible tabs and an index beyond 3 it redirects to index
0 when a task is selected with no run and to index 1 otherwise. -/
theorem autoRedirect_spec : ∀ (sel : Selection) (g : Option TaskNode)
    (i : Nat),
    ((truthy sel.runId && truthy sel.taskId && !isGroupOf g) = true →
      autoRedirectTarget sel g i = none) ∧
    ((truthy sel.runId && truthy sel.taskId && !isGroupOf g) = false →
      3 < i →
      autoRedirectTarget sel g i =
        (if !truthy sel.runId && truthy sel.taskId then some 0
         else some 1)) ∧
    (i ≤ 3 → autoRedirectTarget sel g i = none) := by
  intro sel g i
  refine ⟨?_, ?_, ?_⟩
  · intro h
    simp [autoRedirectTarget, h]
  · intro h hi
    simp [autoRedirectTarget, h, hi]
  · intro hi
    have h3 : ¬3 < i := by omega
    unfold autoRedirectTarget
    by_cases hc :
        (truthy sel.runId && truthy sel.taskId && !isGroupOf g) = true <;>
      simp [hc, h3]

/-- Witness for C5: a task-only selection with tab index 5 is redirected to
index 0. -/
theorem autoRedirect_spec_witness :
    autoRedirectTarget ⟨none, some "t1", none⟩ none 5 =
      (if !truthy (none : Option String) && truthy (some "t1") then some 0
       else some 1) :=
  (autoRedirect_spec ⟨none, some "t1", none⟩ none 5).2.1 (by decide)
    (by decide)

/-- C7: with run and task selected, the node not a group and mapped, the
view is the mapped-task summary exactly when no map index is chosen, and a
task instance exactly when one is chosen. -/
theorem mapped_summary_vs_instance : ∀ (sel : Selection) (t : TaskNode),
    truthy sel.runId = true → truthy sel.taskId = true →
    t.children = none → isMappedOf (some t) = true →
    (sel.mapIndex = none →
      isMappedTaskSummary sel (some t) = true ∧
        isTaskInstance sel (some t) = false) ∧
    (∀ m : Int, sel.mapIndex = some m →
      isTaskInstance sel (some t) = true ∧
        isMappedTaskSummary sel (some t) = false) := by
  intro sel t hr ht hc hm
  have hg : isGroupOf (some t) = false := by
    simp [isGroupOf, childrenOf, hc]
  constructor
  · intro hmi
    simp [isMappedTaskSummary, isTaskInstance, hr, ht, hg, hm, hmi]
  · intro m hmi
    simp [isMappedTaskSummary, isTaskInstance, hr, ht, hg, hm, hmi]

/-- Witness for C7 at a concrete mapped leaf node, once with no map index
and once with map index 2. -/
theorem mapped_summary_vs_instance_witness :
    (isMappedTaskSummary ⟨some "r1", some "t1", none⟩
          (some (TaskNode.mk none (some true) [])) = true ∧
        isTaskInstance ⟨some "r1", some "t1", none⟩
          (some (TaskNode.mk none (some true) [])) = false) ∧
    (isTaskInstance ⟨some "r1", some "t1", some 2⟩
          (some (TaskNode.mk none (some true) [])) = true ∧
        isMappedTaskSummary ⟨some "r1", some "t1", some 2⟩
          (some (TaskNode.mk none (some true) [])) = false) :=
  ⟨(mapped_summary_vs_instance ⟨some "r1", some "t1", none⟩
      (TaskNode.mk none (some true) []) rfl rfl rfl rfl).1 rfl,
   (mapped_summary_vs_instance ⟨some "r1", some "t1", some 2⟩
      (TaskNode.mk none (some true) []) rfl rfl rfl rfl).2 2 rfl⟩

/-- C10: with run and task selected, the node not a group, and a defined
map index not greater than -1, the view is a task instance, yet the
displayed instance comes from the group's per-run instance list and not
from the fetched mapped task instance, while the fetch itself is enabled
because the map index is defined. -/
theorem negativeMapIndex_instance : ∀ (sel : Selection) (g : Option TaskNode)
    (mapped : Option TaskInstanceRec) (m : Int),
    sel.mapIndex = some m → m ≤ -1 →
    truthy sel.runId = true → truthy sel.taskId = true →
    isGroupOf g = false →
    isTaskInstance sel g = true ∧
    instanceOf sel.mapIndex mapped g sel.runId =
      Option.bind g (fun t =>
        t.instances.find? (fun ti => some ti.runId == sel.runId)) ∧
    fetchEnabled sel.mapIndex = true := by
  intro sel g mapped m hmi hneg hr ht hg
  refine ⟨?_, ?_, ?_⟩
  · simp [isTaskInstance, isMappedTaskSummary, hr, ht, hg, hmi]
  · have hlt : ¬m > -1 := by omega
    simp [instanceOf, hmi, hlt]
  · simp [fetchEnabled, hmi]

/-- Witness for C10 at map index -5 over a group carrying one per-run
instance. -/
theorem negativeMapIndex_instance_witness :
    isTaskInstance ⟨some "r1", some "t1", some (-5)⟩
        (some (TaskNode.mk none (some true)
          [⟨"r1", some "running", some 2⟩])) = true ∧
    instanceOf (some (-5)) (some ⟨"r1", some "success", some 1⟩)
        (some (TaskNode.mk none (some true)
          [⟨"r1", some "running", some 2⟩])) (some "r1") =
      Option.bind
        (some (TaskNode.mk none (some true)
          [⟨"r1", some "running", some 2⟩]))
        (fun t => t.instances.find? (fun ti =>
          some ti.runId == some "r1")) ∧
    fetchEnabled (some (-5)) = true :=
  negativeMapIndex_instance ⟨some "r1", some "t1", some (-5)⟩
    (some (TaskNode.mk none (some true) [⟨"r1", some "running", some 2⟩]))
    (some ⟨"r1", some "success", some 1⟩) (-5) rfl (by decide) rfl rfl rfl

/-- Deleting a key leaves no pair with that key to find. -/
lemma getParam_deleteParam (ps : List (String × String)) (k : String) :
    getParam (deleteParam ps k) k = none := by
  induction ps with
  | nil => rfl
  | cons p rest ih =>
    by_cases h : p.1 = k <;> simp [deleteParam, getParam, h, ih]

/-- Setting a key makes its lookup return the new value. -/
lemma getParam_setParam (ps : List (String × String)) (k v : String) :
    getParam (setParam ps k v) k = some v := by
  induction ps with
  | nil => simp [setParam, getParam]
  | cons p rest ih =>
    by_cases h : p.1 = k <;> simp [setParam, getParam, h, ih]

/-- Deleting one key leaves the values of every other key unchanged. -/
lemma getAllParams_deleteParam_ne (ps : List (String × String))
    (k k' : String) (h : k' ≠ k) :
    getAllParams (deleteParam ps k) k' = getAllParams ps k' := by
  induction ps with
  | nil => rfl
  | cons p rest ih =>
    by_cases hp : p.1 = k
    · simp [deleteParam, getAllParams, hp, ih, Ne.symm h]
    · simp [deleteParam, getAllParams, hp, ih]

/-- Setting one key leaves the values of every other key unchanged. -/
lemma getAllParams_setParam_ne (ps : List (String × String))
    (k v k' : String) (h : k' ≠ k) :
    getAllParams (setParam ps k v) k' = getAllParams ps k' := by
  induction ps with
  | nil => simp [setParam, getAllParams, Ne.symm h]
  | cons p rest ih =>
    by_cases hp : p.1 = k
    · simp [setParam, getAllParams, hp, Ne.symm h,
        getAllParams_deleteParam_ne rest k k' h]
    · simp [setParam, getAllParams, hp, ih]

/-- C6: on a tab change to any index, the handler writes the computed tab
name into the tab query parameter when one exists, deletes the tab
parameter when the computed name is unset (in particular at index 0, so
"details" is never written), and leaves the values of every other query
parameter unchanged. -/
theorem onChangeTab_spec : ∀ (ps : List (String × String)) (i : Nat)
    (ti ms : Bool),
    (∀ t, indexToTab i ti ms = some t →
      getParam (onChangeTab ps i ti ms) TAB_PARAM = some t) ∧
    (indexToTab i ti ms = none →
      getParam (onChangeTab ps i ti ms) TAB_PARAM = none) ∧
    onChangeTab ps 0 ti ms = deleteParam ps TAB_PARAM ∧
    (∀ k, k ≠ TAB_PARAM →
      getAllParams (onChangeTab ps i ti ms) k = getAllParams ps k) := by
  intro ps i ti ms
  refine ⟨?_, ?_, rfl, ?_⟩
  · intro t h
    simp [onChangeTab, h, getParam_setParam]
  · intro h
    simp [onChangeTab, h, getParam_deleteParam]
  · intro k hk
    unfold onChangeTab
    cases h : indexToTab i ti ms with
    | none => exact getAllParams_deleteParam_ne ps TAB_PARAM k hk
    | some t => exact getAllParams_setParam_ne ps TAB_PARAM t k hk

/-- Witness for C6: changing to index 1 over concrete parameters writes
"graph" into the tab parameter and keeps the base_date parameter. -/
theorem onChangeTab_spec_witness :
    getParam (onChangeTab [("base_date", "x"), ("tab", "xcom")] 1 false
      false) TAB_PARAM = some "graph" ∧
    getAllParams (onChangeTab [("base_date", "x"), ("tab", "xcom")] 1 false
      false) "base_date" = ["x"] :=
  ⟨(onChangeTab_spec [("base_date", "x"), ("tab", "xcom")] 1 false
      false).1 "graph" rfl,
   ((onChangeTab_spec [("base_date", "x"), ("tab", "xcom")] 1 false
      false).2.2.2 "base_date" (by decide)).trans (by decide)⟩

/-- C8 counterexample: an instance whose state is the empty string is
normalized to unset, although its state is neither missing nor the string
"none", so the passed value does not equal the instance state there. -/
theorem normalizedState_claim_counterexample :
    stateOf (some ⟨"r1", some "", none⟩) = some "" ∧
    stateOf (some ⟨"r1", some "", none⟩) ≠ some "none" ∧
    normalizedState (some ⟨"r1", some "", none⟩) ≠ some "" := by
  refine ⟨rfl, by decide, by decide⟩

/-- C8 amended: the state passed to the Logs viewer and the mark-as
control is unset whenever the instance state is missing, empty, or the
string "none", and equals the instance state otherwise; the function is
total, so absent optional fields never error. -/
theorem normalizedState_amended : ∀ (inst : Option TaskInstanceRec),
    ((stateOf inst = none ∨ stateOf inst = some "" ∨
        stateOf inst = some "none") →
      normalizedState inst = none) ∧
    (∀ s : String, stateOf inst = some s → s ≠ "" → s ≠ "none" →
      normalizedState inst = some s) := by
  intro inst
  constructor
  · rintro (h | h | h) <;> simp [normalizedState, truthy, h]
  · intro s h hne hnn
    simp [normalizedState, truthy, h, hne, hnn]

/-- Witness for C8 (amended) at a present state "success". -/
theorem normalizedState_amended_witness :
    normalizedState (some ⟨"r1", some "success", some 1⟩) = some "success" :=
  (normalizedState_amended (some ⟨"r1", some "success", some 1⟩)).2
    "success" rfl (by decide) (by decide)

end DagDetails
